import Mathlib

/-!
Shallow embedding of the IBKR-MCP-Server core (src/ibkr_mcp/ibkr_client.py and
src/ibkr_mcp/server.py) and proofs about it.

Conventions of the embedding:
* Python floats are modelled as rationals (`ℚ`); Python truthiness of a float
  is `≠ 0`, of a string is `≠ ""`, of a list is `≠ []`, of an `Option` is `isSome`.
* Broker calls that can raise are modelled by oracle parameters
  (`Except`-valued outcomes or `Bool` success flags) supplied to the function;
  the function then follows the source's control flow on those outcomes.
* Side-effecting broker calls are recorded in an event trace so that claims
  about which calls happen on which path can be stated.
-/

namespace IBKR

/-- helper for the Python `a or b` idiom on floats: `a` when truthy (nonzero), else `b`. -/
def pyOrQ (a b : ℚ) : ℚ := if a ≠ 0 then a else b

/-- helper for the Python `a or b` idiom on strings: `a` when nonempty, else `b`. -/
def pyOrStr (a b : String) : String := if a ≠ "" then a else b

/-- snapshot of the ticker fields read by `get_stock_price` / `get_option_price`
(`ticker.marketPrice()` result, `last`, `close`, `bid`, `ask`, `volume`). -/
structure Ticker where
  marketPrice : ℚ
  last : ℚ
  close : ℚ
  bid : ℚ
  ask : ℚ
  volume : ℤ
deriving Repr, DecidableEq

/-- result record built by the market-data accessors (models.MarketData, the
fields the code populates). -/
structure MarketData where
  symbol : String
  price : ℚ
  bid : Option ℚ
  ask : Option ℚ
  volume : Option ℤ
deriving Repr, DecidableEq

/-- broker calls made by `get_stock_price` / `get_option_price`. -/
inductive MdEvent
  | reqMktData
  | sleepWait
  | reqTicker
  | cancelMktData
deriving Repr, DecidableEq

/-- embedding of `IBKRClient.get_stock_price` (ibkr_client.py lines 257-295),
on a connected client.  `tickerRes` is the outcome of `self.ib.reqTicker`:
`.error ()` models it raising.  The `except` clause of the source logs and
re-raises, so an error outcome propagates; note that `cancelMktData` is only
reached on the normal path. -/
def get_stock_price (symbol : String) (tickerRes : Except Unit Ticker) :
    Except Unit MarketData × List MdEvent :=
  match tickerRes with
  | .error e => (.error e, [.reqMktData, .sleepWait, .reqTicker])
  | .ok t =>
      let price := pyOrQ t.marketPrice (pyOrQ t.close 0)
      let bid := if t.bid > 0 then some t.bid else none
      let ask := if t.ask > 0 then some t.ask else none
      let volume := if t.volume > 0 then some t.volume else none
      (.ok { symbol := symbol, price := price, bid := bid, ask := ask, volume := volume },
        [.reqMktData, .sleepWait, .reqTicker, .cancelMktData])

/-- embedding of `IBKRClient.get_option_price` (ibkr_client.py lines 297-337);
the body duplicates `get_stock_price` except for the composed option symbol. -/
def get_option_price (symbol expiry : String) (strike : ℚ) (right : String)
    (tickerRes : Except Unit Ticker) :
    Except Unit MarketData × List MdEvent :=
  match tickerRes with
  | .error e => (.error e, [.reqMktData, .sleepWait, .reqTicker])
  | .ok t =>
      let price := pyOrQ t.marketPrice (pyOrQ t.close 0)
      let bid := if t.bid > 0 then some t.bid else none
      let ask := if t.ask > 0 then some t.ask else none
      let volume := if t.volume > 0 then some t.volume else none
      let optionSymbol := symbol ++ "_" ++ expiry ++ "_" ++ toString strike ++ "_" ++ right
      (.ok { symbol := optionSymbol, price := price, bid := bid, ask := ask, volume := volume },
        [.reqMktData, .sleepWait, .reqTicker, .cancelMktData])

/-- price-resolution chain as the spec words it (marketPrice → last → close →
bid/ask midpoint when both positive → 0.0, first positive wins); stated for
comparison with the code's actual chain. -/
def specPriceChain (t : Ticker) : ℚ :=
  if t.marketPrice > 0 then t.marketPrice
  else if t.last > 0 then t.last
  else if t.close > 0 then t.close
  else if t.bid > 0 ∧ t.ask > 0 then (t.bid + t.ask) / 2
  else 0

/-- price chain the code actually implements: `marketPrice() or close or 0.0`
(first nonzero of marketPrice and close, else 0). -/
def codePriceChain (t : Ticker) : ℚ := pyOrQ t.marketPrice (pyOrQ t.close 0)

/-- ticker with no market price and no close but a positive last trade:
the code returns 0 here while the spec's chain returns the last price. -/
def t2cx : Ticker :=
  { marketPrice := 0, last := 5, close := 0, bid := 0, ask := 0, volume := 0 }

/-- price field of a market-data fetch outcome, `none` when the fetch raised. -/
def fetchedPrice (r : Except Unit MarketData × List MdEvent) : Option ℚ :=
  r.1.toOption.map MarketData.price

/-! ## Connection lifecycle (`IBKRClient.__init__`, `connect`, `is_connection_alive`,
`ensure_connected`, ibkr_client.py lines 25-130) -/

/-- connection configuration (config.IBKRConfig). -/
structure IBKRConfig where
  host : String
  port : Nat
  clientId : Nat
  account : Option String
  isPaper : Bool
  timeout : ℚ
deriving Repr, DecidableEq

/-- mutable fields of `IBKRClient` relevant to the connection lifecycle
(`self.config`, `self.connected`, `self.account`, `self._reconnect_attempts`). -/
structure ClientState where
  config : IBKRConfig
  connected : Bool
  account : Option String
  reconnectAttempts : Nat
deriving Repr, DecidableEq

/-- value of `self._max_reconnect_attempts` set in `__init__`. -/
def maxReconnectAttempts : Nat := 3

/-- observable actions of the reconnect protocol: announcing reconnection
attempt `n`, dropping the old transport handle, creating a fresh one, and the
backoff sleep of the given number of time units. -/
inductive CEvent
  | connectAttempt (n : Nat)
  | disconnectIB
  | freshIB
  | sleepBackoff (units : Nat)
deriving Repr, DecidableEq

/-- embedding of `IBKRClient.is_connection_alive` (lines 82-90): false when the
`connected` flag is down, otherwise the probe result; `probeOk` models
`self.ib.isConnected()` with any probe exception collapsed to `false` by the
source's `except` clause. -/
def is_connection_alive (s : ClientState) (probeOk : Bool) : Bool :=
  if ¬ s.connected then false else probeOk

/-- embedding of `IBKRClient._update_account_info` (lines 64-75): explicit
configured account wins, else the first managed account, else the
"No accounts found" exception. -/
def _update_account_info (cfg : IBKRConfig) (managed : List String) :
    Except String (Option String) :=
  match cfg.account with
  | some a => .ok (some a)
  | none =>
      match managed with
      | a :: _ => .ok (some a)
      | [] => .error "No accounts found"

/-- embedding of `IBKRClient.connect` (lines 33-55): on transport success the
`connected` flag is raised and the account resolved; any exception (transport
failure or account detection failure) is caught, `connected` is cleared and
`False` is returned, with `self.account` left as it was.  Result components:
(return value, new `connected`, new `account`). -/
def connect (cfg : IBKRConfig) (transportOk : Bool) (managed : List String)
    (acct : Option String) : Bool × Bool × Option String :=
  if transportOk then
    match _update_account_info cfg managed with
    | .ok a => (true, true, a)
    | .error _ => (false, false, acct)
  else (false, false, acct)

/-- per-invocation oracles for the reconnect loop: for the `k`-th connect call
of this invocation, whether the transport opens, and the managed-account list
the gateway reports. -/
structure ReconnectEnv where
  transportOk : Nat → Bool
  managed : Nat → List String

/-- embedding of the `while self._reconnect_attempts < self._max_reconnect_attempts`
loop of `ensure_connected` (lines 102-130).  The `fuel` argument only bounds the
recursion: it is called with `fuel = maxReconnectAttempts`, and since the
counter strictly increases each iteration the guard `attempts < maxReconnectAttempts`
always fails by the time fuel runs out, where the base case returns exactly what
the guard-false exit returns (`False`, counter left as is, connected down).
Each iteration: increment and announce the attempt, disconnect the old handle
(exceptions swallowed), create a fresh `IB()`, call `connect`; on success reset
the counter to 0 and return `True`; on failure sleep 2 time units and loop. -/
def reconnectLoop (cfg : IBKRConfig) (env : ReconnectEnv) :
    Nat → Nat → Option String → Nat → Bool × ClientState × List CEvent
  | 0, attempts, acct, _ =>
      (false,
        { config := cfg, connected := false, account := acct, reconnectAttempts := attempts },
        [])
  | fuel + 1, attempts, acct, k =>
      if attempts < maxReconnectAttempts then
        let a1 := attempts + 1
        let c := connect cfg (env.transportOk k) (env.managed k) acct
        if c.1 then
          (true,
            { config := cfg, connected := c.2.1, account := c.2.2, reconnectAttempts := 0 },
            [.connectAttempt a1, .disconnectIB, .freshIB])
        else
          let rest := reconnectLoop cfg env fuel a1 c.2.2 (k + 1)
          (rest.1, rest.2.1,
            .connectAttempt a1 :: .disconnectIB :: .freshIB :: .sleepBackoff 2 :: rest.2.2)
      else
        (false,
          { config := cfg, connected := false, account := acct, reconnectAttempts := attempts },
          [])

/-- embedding of `IBKRClient.ensure_connected` (lines 92-130): when the liveness
probe succeeds, reset the retry counter and return immediately; otherwise clear
`connected` and run the bounded reconnect loop. -/
def ensure_connected (s : ClientState) (probeOk : Bool) (env : ReconnectEnv) :
    Bool × ClientState × List CEvent :=
  if is_connection_alive s probeOk then
    (true, { s with reconnectAttempts := 0 }, [])
  else
    reconnectLoop s.config env maxReconnectAttempts s.reconnectAttempts s.account 0

/-- recogniser for reconnection-attempt events. -/
def isConnectAttempt : CEvent → Bool
  | .connectAttempt _ => true
  | .disconnectIB => false
  | .freshIB => false
  | .sleepBackoff _ => false

/-- number of reconnection attempts recorded in a trace. -/
def attemptsIn (evs : List CEvent) : Nat := (evs.filter isConnectAttempt).length

/-- scans a trace: true when a 2-unit backoff sleep occurs before any further
reconnection attempt (or no further attempt occurs). -/
def noAttemptBeforeBackoff : List CEvent → Bool
  | [] => true
  | .connectAttempt _ :: _ => false
  | .sleepBackoff u :: rest => if u = 2 then true else noAttemptBeforeBackoff rest
  | .disconnectIB :: rest => noAttemptBeforeBackoff rest
  | .freshIB :: rest => noAttemptBeforeBackoff rest

/-- true when every pair of consecutive reconnection attempts in the trace has
a 2-unit backoff sleep between them. -/
def backoffBetweenAttempts : List CEvent → Bool
  | [] => true
  | .connectAttempt _ :: rest => noAttemptBeforeBackoff rest && backoffBetweenAttempts rest
  | .disconnectIB :: rest => backoffBetweenAttempts rest
  | .freshIB :: rest => backoffBetweenAttempts rest
  | .sleepBackoff _ :: rest => backoffBetweenAttempts rest

/-- whether the `k`-th connect call of a reconnect invocation succeeds (the
return value of `connect` does not depend on the prior account value). -/
def connectOkAt (cfg : IBKRConfig) (env : ReconnectEnv) (k : Nat) : Bool :=
  (connect cfg (env.transportOk k) (env.managed k) none).1

/-! ## Remote-procedure layer (server.py tool handlers, lines 73-382) -/

/-- the operations the server exposes as tools. -/
inductive Tool
  | getPortfolio
  | getAccountSummary
  | getStockPrice
  | getOptionPrice
  | getConnectionStatus
  | getOrders
  | getTrades
  | getExecutions
  | cancelOrder
  | getOptionChain
  | getOptionExpirations
deriving Repr, DecidableEq

/-- calls a tool handler makes on the client. -/
inductive SrvEvent
  | ensureConnectedCall
  | accessorCall
deriving Repr, DecidableEq

/-- response classes of a tool handler: the fixed "client not initialized"
error, the fixed "Not connected to IBKR TWS and reconnection failed" error,
the invalid-right validation error of `get_option_price`, a successful JSON
payload, an accessor-exception error string, and the unconditional status
report of `get_connection_status`. -/
inductive SrvResp
  | errNotInitialized
  | errNotConnected
  | errInvalidRight
  | okPayload
  | errAccessor
  | statusReport
deriving Repr, DecidableEq

/-- common body shared verbatim by nine of the tool handlers in server.py:
check the client exists, call `ensure_connected` and fail fast when it returns
false, then invoke the underlying accessor (whose exception is caught and
rendered as an error string). -/
def standardToolBody (clientInit ensureOk accessorOk : Bool) :
    SrvResp × List SrvEvent :=
  if ¬ clientInit then (.errNotInitialized, [])
  else if ¬ ensureOk then (.errNotConnected, [.ensureConnectedCall])
  else if accessorOk then (.okPayload, [.ensureConnectedCall, .accessorCall])
  else (.errAccessor, [.ensureConnectedCall, .accessorCall])

/-- embedding of the eleven tool handlers of server.py.  `get_option_price`
additionally validates the option right after the connection check;
`get_connection_status` (lines 172-203) performs no `ensure_connected` call at
all and reads the connection state, account and config unconditionally. -/
def handleTool (t : Tool) (clientInit ensureOk rightValid accessorOk : Bool) :
    SrvResp × List SrvEvent :=
  match t with
  | .getConnectionStatus =>
      if ¬ clientInit then (.errNotInitialized, [])
      else if accessorOk then (.statusReport, [.accessorCall])
      else (.errAccessor, [.accessorCall])
  | .getOptionPrice =>
      if ¬ clientInit then (.errNotInitialized, [])
      else if ¬ ensureOk then (.errNotConnected, [.ensureConnectedCall])
      else if ¬ rightValid then (.errInvalidRight, [.ensureConnectedCall])
      else if accessorOk then (.okPayload, [.ensureConnectedCall, .accessorCall])
      else (.errAccessor, [.ensureConnectedCall, .accessorCall])
  | _ => standardToolBody clientInit ensureOk accessorOk

/-! ## Order and trade conversion (`_convert_trade_to_order`, `_convert_to_trade`,
ibkr_client.py lines 363-459) -/

/-- contract fields read by the converters; the option attributes are read with
`getattr(..., None)` so they are optional. -/
structure ContractR where
  symbol : String
  secType : String
  lastTradeDateOrContractMonth : Option String
  strike : Option ℚ
  right : Option String
deriving Repr, DecidableEq

/-- order fields read by the converters (`trade.order`). -/
structure IBOrderR where
  orderId : Int
  clientId : Int
  permId : Int
  action : String
  orderType : String
  totalQuantity : ℚ
  lmtPrice : ℚ
  auxPrice : ℚ
  tif : String
  parentId : Int
  ocaGroup : String
deriving Repr, DecidableEq

/-- order-status fields read by the converters (`trade.orderStatus`);
broker-unreported numeric fields are the falsy 0.0. -/
structure OrderStatusR where
  status : String
  filled : ℚ
  remaining : ℚ
  avgFillPrice : ℚ
  lastFillPrice : ℚ
deriving Repr, DecidableEq

/-- commission report attached to a fill. -/
structure CommissionReportR where
  commission : ℚ
  realizedPNL : ℚ
  currency : String
deriving Repr, DecidableEq

/-- fill record as read by `_convert_to_trade` (only the commission report is
consulted there). -/
structure FillR where
  commissionReport : Option CommissionReportR
deriving Repr, DecidableEq

/-- the ib_async Trade record the converters consume. -/
structure IBTradeR where
  contract : ContractR
  order : IBOrderR
  orderStatus : OrderStatusR
  fills : List FillR
deriving Repr, DecidableEq

/-- domain Order record (models.Order, fields the converter populates). -/
structure Order where
  order_id : Int
  client_id : Int
  perm_id : Int
  symbol : String
  contract_type : String
  action : String
  order_type : String
  total_quantity : ℚ
  filled_quantity : ℚ
  remaining_quantity : ℚ
  limit_price : Option ℚ
  aux_price : Option ℚ
  status : String
  expiry : Option String
  strike : Option ℚ
  right : Option String
  time_in_force : String
  parent_id : Int
  oca_group : String
deriving Repr, DecidableEq

/-- domain Trade record (models.Trade, fields the converter populates). -/
structure Trade where
  order_id : Int
  contract_symbol : String
  contract_type : String
  action : String
  order_type : String
  status : String
  total_quantity : ℚ
  filled_quantity : ℚ
  remaining_quantity : ℚ
  avg_fill_price : ℚ
  last_fill_price : ℚ
  limit_price : Option ℚ
  expiry : Option String
  strike : Option ℚ
  right : Option String
  commission : ℚ
  realized_pnl : ℚ
deriving Repr, DecidableEq

/-- embedding of `IBKRClient._convert_trade_to_order` (lines 363-398); note the
`remaining_quantity` fallback to `totalQuantity` when the broker value is falsy. -/
def _convert_trade_to_order (trade : IBTradeR) : Order :=
  let contract := trade.contract
  let ib_order := trade.order
  let order_status := trade.orderStatus
  let expiry := if contract.secType = "OPT" then contract.lastTradeDateOrContractMonth else none
  let strike := if contract.secType = "OPT" then contract.strike else none
  let right := if contract.secType = "OPT" then contract.right else none
  { order_id := ib_order.orderId
    client_id := ib_order.clientId
    perm_id := ib_order.permId
    symbol := contract.symbol
    contract_type := contract.secType
    action := ib_order.action
    order_type := ib_order.orderType
    total_quantity := ib_order.totalQuantity
    filled_quantity := if order_status.filled ≠ 0 then order_status.filled else 0
    remaining_quantity :=
      if order_status.remaining ≠ 0 then order_status.remaining else ib_order.totalQuantity
    limit_price := if ib_order.lmtPrice ≠ 0 then some ib_order.lmtPrice else none
    aux_price := if ib_order.auxPrice ≠ 0 then some ib_order.auxPrice else none
    status := order_status.status
    expiry := expiry
    strike := strike
    right := right
    time_in_force := ib_order.tif
    parent_id := ib_order.parentId
    oca_group := pyOrStr ib_order.ocaGroup "" }

/-- embedding of `IBKRClient._convert_to_trade` (lines 418-459); commission and
realized P&L are summed over the fills that carry a commission report, and
`remaining_quantity` falls back to 0.0 (not `totalQuantity`) when the broker
value is falsy. -/
def _convert_to_trade (ib_trade : IBTradeR) : Trade :=
  let contract := ib_trade.contract
  let order := ib_trade.order
  let order_status := ib_trade.orderStatus
  let expiry := if contract.secType = "OPT" then contract.lastTradeDateOrContractMonth else none
  let strike := if contract.secType = "OPT" then contract.strike else none
  let right := if contract.secType = "OPT" then contract.right else none
  let totals := ib_trade.fills.foldl
    (fun acc fill =>
      match fill.commissionReport with
      | some cr =>
          (acc.1 + (if cr.commission ≠ 0 then cr.commission else 0),
           acc.2 + (if cr.realizedPNL ≠ 0 then cr.realizedPNL else 0))
      | none => acc)
    ((0 : ℚ), (0 : ℚ))
  { order_id := order.orderId
    contract_symbol := contract.symbol
    contract_type := contract.secType
    action := order.action
    order_type := order.orderType
    status := order_status.status
    total_quantity := order.totalQuantity
    filled_quantity := if order_status.filled ≠ 0 then order_status.filled else 0
    remaining_quantity := if order_status.remaining ≠ 0 then order_status.remaining else 0
    avg_fill_price := if order_status.avgFillPrice ≠ 0 then order_status.avgFillPrice else 0
    last_fill_price := if order_status.lastFillPrice ≠ 0 then order_status.lastFillPrice else 0
    limit_price := if order.lmtPrice ≠ 0 then some order.lmtPrice else none
    expiry := expiry
    strike := strike
    right := right
    commission := totals.1
    realized_pnl := totals.2 }

/-- concrete broker trade whose status carries no remaining value (falsy 0.0)
and a total quantity of 5, exposing the differing fallbacks of the two
converters. -/
def t6cx : IBTradeR :=
  { contract :=
      { symbol := "AAPL", secType := "STK", lastTradeDateOrContractMonth := none,
        strike := none, right := none }
    order :=
      { orderId := 1, clientId := 1, permId := 7, action := "BUY", orderType := "LMT",
        totalQuantity := 5, lmtPrice := 100, auxPrice := 0, tif := "DAY",
        parentId := 0, ocaGroup := "" }
    orderStatus :=
      { status := "PendingSubmit", filled := 0, remaining := 0,
        avgFillPrice := 0, lastFillPrice := 0 }
    fills := [] }

/-! ## Account summary (`get_account_summary`, ibkr_client.py lines 218-251) -/

/-- one entry of `self.ib.accountValues(...)` as the code consumes it: a tag
and the result of `float(item.value)`, which is `none` exactly when the parse
raises `ValueError`/`TypeError` (non-numeric value). -/
structure AccountValueR where
  tag : String
  parsedValue : Option ℚ
deriving Repr, DecidableEq

/-- embedding of the dict-building loop of `get_account_summary` (and
`get_portfolio`): iterate the account values in order, skip the ones whose
value does not parse, and assign `dict[tag] = value` (later assignments of the
same tag overwrite earlier ones).  The dict is modelled extensionally as the
lookup function the code uses it for (`dict.get(tag, default)`). -/
def buildAccountValues (items : List AccountValueR) : String → Option ℚ :=
  items.foldl
    (fun acc item =>
      match item.parsedValue with
      | some v => fun t => if t = item.tag then some v else acc t
      | none => acc)
    (fun _ => none)

/-- parsed value of the last parseable occurrence of a tag in an account-value
list, the value Python's dict ends up holding for that tag. -/
def lastParsed (items : List AccountValueR) (k : String) : Option ℚ :=
  match items with
  | [] => none
  | i :: rest => (lastParsed rest k).orElse (fun _ => if i.tag = k then i.parsedValue else none)

/-- domain AccountSummary record (models.AccountSummary, numeric fields the
code populates from the tag dict). -/
structure AccountSummary where
  account : String
  net_liquidation : ℚ
  total_cash_value : ℚ
  settled_cash : ℚ
  accrued_cash : ℚ
  buying_power : ℚ
  equity_with_loan_value : ℚ
  previous_day_equity_with_loan_value : ℚ
  gross_position_value : ℚ
  reg_t_margin : ℚ
  sma : ℚ
  init_margin_req : ℚ
  maint_margin_req : ℚ
  available_funds : ℚ
  excess_liquidity : ℚ
deriving Repr, DecidableEq

/-- embedding of `IBKRClient.get_account_summary` (lines 218-251) on a
connected client: build the numeric tag dict and read every summary field with
`dict.get(tag, 0.0)`. -/
def get_account_summary (account : String) (items : List AccountValueR) :
    AccountSummary :=
  let av := buildAccountValues items
  { account := account
    net_liquidation := (av "NetLiquidation").getD 0
    total_cash_value := (av "TotalCashValue").getD 0
    settled_cash := (av "SettledCash").getD 0
    accrued_cash := (av "AccruedCash").getD 0
    buying_power := (av "BuyingPower").getD 0
    equity_with_loan_value := (av "EquityWithLoanValue").getD 0
    previous_day_equity_with_loan_value := (av "PreviousDayEquityWithLoanValue").getD 0
    gross_position_value := (av "GrossPositionValue").getD 0
    reg_t_margin := (av "RegTMargin").getD 0
    sma := (av "SMA").getD 0
    init_margin_req := (av "InitMarginReq").getD 0
    maint_margin_req := (av "MaintMarginReq").getD 0
    available_funds := (av "AvailableFunds").getD 0
    excess_liquidity := (av "ExcessLiquidity").getD 0 }

/-! ## Option chain construction (`get_option_chain`, ibkr_client.py
lines 547-674) -/

/-- model of Python `sorted` on a float list: ascending order, same multiset
(insertion sort is extensionally the same function on rationals). -/
def sortedPy (l : List ℚ) : List ℚ := List.insertionSort (· ≤ ·) l

/-- model of Python `abs()` on a float, written so that it evaluates by kernel
reduction; it equals the mathematical `|·|` (see `pyAbs_eq_abs`). -/
def pyAbs (x : ℚ) : ℚ := if x < 0 then -x else x

/-- embedding of `min(range(len(all_strikes)), key=lambda i: abs(all_strikes[i]
- underlying_price))` (line 584): the first index whose strike is nearest the
underlying price; `List.argmin` breaks ties by first occurrence exactly as
Python `min` does.  On the empty list Python raises; the 0 default is never
consulted by the callers proved about (`get_option_chain` checks for it, and
the window theorems assume a nonempty list). -/
def atmIndex (allStrikes : List ℚ) (price : ℚ) : Nat :=
  (((List.range allStrikes.length).argmin
      fun i => pyAbs (allStrikes.getD i 0 - price)).getD 0)

/-- embedding of the strike-window selection of `get_option_chain`
(lines 583-588): sort the strikes, locate the ATM index, and slice
`all_strikes[max(0, atm - range/2) : min(len, atm + range/2 + 1)]`.
Natural-number truncated subtraction implements Python's `max(0, ...)`. -/
def selectStrikes (rawStrikes : List ℚ) (underlyingPrice : ℚ) (strikeRange : Nat) :
    List ℚ :=
  let allStrikes := sortedPy rawStrikes
  let atm := atmIndex allStrikes underlyingPrice
  let startIdx : Nat := atm - strikeRange / 2
  let endIdx : Nat := min allStrikes.length (atm + strikeRange / 2 + 1)
  (allStrikes.drop startIdx).take (endIdx - startIdx)

/-- domain OptionGreeks record as populated from `ticker.modelGreeks`
(`rho` is never set by the code). -/
structure OptionGreeksR where
  delta : Option ℚ
  gamma : Option ℚ
  theta : Option ℚ
  vega : Option ℚ
  rho : Option ℚ
  implied_volatility : Option ℚ
  underlying_price : Option ℚ
  option_price : Option ℚ
  pv_dividend : Option ℚ
deriving Repr, DecidableEq

/-- one strike row of the chain (models.OptionChainStrike, fields the code
populates). -/
structure OptionChainStrike where
  strike : ℚ
  expiry : String
  call_bid : Option ℚ
  call_ask : Option ℚ
  call_last : Option ℚ
  call_volume : Option ℤ
  call_greeks : Option OptionGreeksR
  put_bid : Option ℚ
  put_ask : Option ℚ
  put_last : Option ℚ
  put_volume : Option ℤ
  put_greeks : Option OptionGreeksR
deriving Repr, DecidableEq

/-- assembled option chain (models.OptionChain). -/
structure OptionChain where
  symbol : String
  underlyingPrice : ℚ
  expiry : String
  strikes : List OptionChainStrike
deriving Repr, DecidableEq

/-- one option-chain parameter set from `reqSecDefOptParams`. -/
structure ChainParams where
  exchange : String
  strikes : List ℚ
  expirations : List String
deriving Repr, DecidableEq

/-- outcome of the per-side quote fetch for one strike: whether an exception
was raised somewhere in the side's block, whether qualification matched, and
the ticker values read. -/
structure SideQuote where
  raised : Bool
  qualified : Bool
  bid : ℚ
  ask : ℚ
  last : ℚ
  volume : ℤ
  modelGreeks : Option OptionGreeksR
deriving Repr, DecidableEq

/-- oracles for one `get_option_chain` execution: whether `qualifyContracts`
on the stock raises, the stock ticker the (missing) market-data helper would
return, the chain parameter sets, and the per-strike call/put side outcomes. -/
structure ChainEnv where
  qualifyOk : Bool
  stockTicker : Ticker
  chains : List ChainParams
  callQuote : ℚ → SideQuote
  putQuote : ℚ → SideQuote

/-- fields one side of a strike row gets from its quote fetch: nothing when
the side's block raised or qualification failed, else bid/ask/last filtered to
strictly-positive values, volume filtered to truthy (nonzero) values, and the
model Greeks when present (lines 596-660). -/
def applySide (q : SideQuote) :
    Option ℚ × Option ℚ × Option ℚ × Option ℤ × Option OptionGreeksR :=
  if q.raised then (none, none, none, none, none)
  else if q.qualified then
    (if q.bid ≠ 0 ∧ q.bid > 0 then some q.bid else none,
     if q.ask ≠ 0 ∧ q.ask > 0 then some q.ask else none,
     if q.last ≠ 0 ∧ q.last > 0 then some q.last else none,
     if q.volume ≠ 0 then some q.volume else none,
     q.modelGreeks)
  else (none, none, none, none, none)

/-- one strike row assembled from the two independent side fetches. -/
def buildStrike (env : ChainEnv) (expiry : String) (strike : ℚ) :
    OptionChainStrike :=
  let c := applySide (env.callQuote strike)
  let p := applySide (env.putQuote strike)
  { strike := strike, expiry := expiry,
    call_bid := c.1, call_ask := c.2.1, call_last := c.2.2.1,
    call_volume := c.2.2.2.1, call_greeks := c.2.2.2.2,
    put_bid := p.1, put_ask := p.2.1, put_last := p.2.2.1,
    put_volume := p.2.2.2.1, put_greeks := p.2.2.2.2 }

/-- failure modes of `get_option_chain`, all re-raised to the caller by its
`except` clause. -/
inductive ChainErr
  | notConnected
  | qualifyFailed
  | attributeError (name : String)
  | noChains
  | valueError
deriving Repr, DecidableEq

/-- the methods defined on `IBKRClient` in ibkr_client.py; attribute lookup of
any other name on `self` raises `AttributeError`. -/
def ibkrClientMethods : List String :=
  ["__init__", "connect", "disconnect", "_update_account_info", "_ensure_connected",
   "is_connection_alive", "ensure_connected", "get_portfolio", "_convert_portfolio_item",
   "get_account_summary", "get_stock_price", "get_option_price", "get_orders",
   "_convert_trade_to_order", "get_trades", "_convert_to_trade", "get_executions",
   "_convert_fill_to_execution", "cancel_order", "get_option_chain",
   "get_option_expirations", "__aenter__", "__aexit__"]

/-- embedding of the body of `get_option_chain` below line 563, i.e. what the
code would do if the underlying-price fetch succeeded: resolve the underlying
price through `marketPrice() or last or close or 0.0`, pick the parameter set
matching the exchange (or the first), fail when no sets or no strikes exist,
select the ATM-centred strike window and assemble the per-strike rows. -/
def buildChainRest (env : ChainEnv) (symbol expiry : String) (strike_range : Nat)
    (exchange : String) : Except ChainErr OptionChain :=
  let t := env.stockTicker
  let underlying := pyOrQ t.marketPrice (pyOrQ t.last (pyOrQ t.close 0))
  match env.chains with
  | [] => .error .noChains
  | c0 :: rest =>
      let chain :=
        (((c0 :: rest).find? fun c => c.exchange = exchange || exchange = "SMART").getD c0)
      if chain.strikes = [] then .error .valueError
      else
        let selected := selectStrikes chain.strikes underlying strike_range
        .ok { symbol := symbol, underlyingPrice := underlying, expiry := expiry,
              strikes := selected.map (buildStrike env expiry) }

/-- embedding of `IBKRClient.get_option_chain` (lines 547-674): the connection
guard, then inside the try block the stock qualification (whose exception is
re-raised), then the call `await self._request_market_data(stock)` on line 563
— a method that appears nowhere in the class, so when the name lookup fails an
`AttributeError` is raised and re-raised by the except clause; the rest of the
body (`buildChainRest`) is unreachable. -/
def get_option_chain (connected : Bool) (env : ChainEnv) (symbol expiry : String)
    (strike_range : Nat) (exchange : String) : Except ChainErr OptionChain :=
  if ¬ connected then .error .notConnected
  else if ¬ env.qualifyOk then .error .qualifyFailed
  else if "_request_market_data" ∈ ibkrClientMethods then
    buildChainRest env symbol expiry strike_range exchange
  else .error (.attributeError "_request_market_data")

/-! ## Concrete inputs used by witnesses -/

/-- reconnect environment in which every transport attempt fails. -/
def envAllFail : ReconnectEnv := { transportOk := fun _ => false, managed := fun _ => [] }

/-- reconnect environment in which every transport attempt succeeds and the
gateway reports one managed account. -/
def envAllOk : ReconnectEnv := { transportOk := fun _ => true, managed := fun _ => ["DU200"] }

/-- a live client state with a nonzero retry counter. -/
def s8w : ClientState :=
  { config := { host := "127.0.0.1", port := 7497, clientId := 1, account := some "DU100",
                isPaper := true, timeout := 10 },
    connected := true, account := some "DU100", reconnectAttempts := 2 }

/-- a dead client state with the retry counter at zero. -/
def s5w : ClientState :=
  { config := { host := "127.0.0.1", port := 7497, clientId := 1, account := none,
                isPaper := true, timeout := 10 },
    connected := false, account := none, reconnectAttempts := 0 }

/-- a dead client state whose retry counter has saturated at the bound. -/
def s10w : ClientState :=
  { config := { host := "127.0.0.1", port := 7497, clientId := 1, account := none,
                isPaper := true, timeout := 10 },
    connected := false, account := none, reconnectAttempts := 3 }

/-- account values of the spec's end-to-end example: a numeric net liquidation,
a non-numeric currency entry, and a numeric available-funds entry. -/
def itemsW : List AccountValueR :=
  [{ tag := "NetLiquidation", parsedValue := some (12543055 / 100) },
   { tag := "Currency", parsedValue := none },
   { tag := "AvailableFunds", parsedValue := some (9821010 / 100) }]

/-- account values with no parseable AvailableFunds entry. -/
def itemsNoAF : List AccountValueR :=
  [{ tag := "NetLiquidation", parsedValue := some 1000 },
   { tag := "AvailableFunds", parsedValue := none },
   { tag := "Currency", parsedValue := none }]

/-- a side-quote fetch that found no qualified contract. -/
def sqNone : SideQuote :=
  { raised := false, qualified := false, bid := 0, ask := 0, last := 0, volume := 0,
    modelGreeks := none }

/-- concrete chain environment whose stock qualification succeeds. -/
def envC9 : ChainEnv :=
  { qualifyOk := true, stockTicker := t2cx, chains := [],
    callQuote := fun _ => sqNone, putQuote := fun _ => sqNone }

end IBKR

namespace IBKR

/-- C2: the claim states the returned price follows the chain
marketPrice() → last → close → bid/ask midpoint → 0.0; the code only consults
marketPrice() and close, so a ticker with only a positive `last` yields 0. -/
theorem C2_counterexample :
    fetchedPrice (get_stock_price "AAPL" (.ok t2cx)) = some 0 ∧
    fetchedPrice (get_option_price "AAPL" "20241220" 150 "C" (.ok t2cx)) = some 0 ∧
    specPriceChain t2cx = 5 ∧ (0 : ℚ) ≠ 5 := by
  refine ⟨rfl, rfl, rfl, by norm_num⟩

/-- C2 (amended): for every snapshot, both accessors return as price the first
nonzero value in the chain marketPrice() → close → 0.0; `last` and the bid/ask
midpoint are never consulted. -/
theorem C2_amended (symbol expiry right : String) (strike : ℚ) (t : Ticker) :
    fetchedPrice (get_stock_price symbol (.ok t)) = some (codePriceChain t) ∧
    fetchedPrice (get_option_price symbol expiry strike right (.ok t)) =
      some (codePriceChain t) := by
  exact ⟨rfl, rfl⟩

/-- C3: the claim states `cancelMktData` runs on every exit path once
`reqMktData` was issued; when ticker retrieval raises, the code re-raises
without ever reaching the cancellation, so the subscription stays active. -/
theorem C3_counterexample :
    MdEvent.reqMktData ∈ (get_stock_price "AAPL" (.error ())).2 ∧
    MdEvent.cancelMktData ∉ (get_stock_price "AAPL" (.error ())).2 ∧
    (get_stock_price "AAPL" (.error ())).1 = .error () := by
  refine ⟨by decide, by decide, rfl⟩

/-- C3 (amended): the cancellation is performed on the normal return path
after the ticker is read; on an exception raised between the subscription
request and the cancellation (ticker retrieval failing), both accessors
propagate the exception without cancelling the subscription. -/
theorem C3_amended (symbol expiry right : String) (strike : ℚ) (t : Ticker) :
    MdEvent.cancelMktData ∈ (get_stock_price symbol (.ok t)).2 ∧
    MdEvent.cancelMktData ∈ (get_option_price symbol expiry strike right (.ok t)).2 ∧
    MdEvent.cancelMktData ∉ (get_stock_price symbol (.error ())).2 ∧
    MdEvent.cancelMktData ∉ (get_option_price symbol expiry strike right (.error ())).2 ∧
    MdEvent.reqMktData ∈ (get_stock_price symbol (.error ())).2 ∧
    MdEvent.reqMktData ∈ (get_option_price symbol expiry strike right (.error ())).2 := by
  refine ⟨?_, ?_, ?_, ?_, ?_, ?_⟩ <;> simp [get_stock_price, get_option_price]

/-- C4: the claim includes `get_connection_status` among the operations that
require a successful `ensure_connected` first; that handler invokes its
accessor without ever calling `ensure_connected` and does not surface the
not-connected error. -/
theorem C4_counterexample :
    (handleTool .getConnectionStatus true false true true).1 = SrvResp.statusReport ∧
    (handleTool .getConnectionStatus true false true true).1 ≠ SrvResp.errNotConnected ∧
    (handleTool .getConnectionStatus true false true true).2 = [SrvEvent.accessorCall] ∧
    SrvEvent.ensureConnectedCall ∉ (handleTool .getConnectionStatus true false true true).2 := by
  decide

/-- C4 (amended): every exposed tool except `get_connection_status` invokes
its accessor only after `ensure_connected` returned true in that call and
surfaces the fixed not-connected error otherwise; `get_connection_status`
reports status without consulting `ensure_connected` at all. -/
theorem C4_amended (t : Tool) (ht : t ≠ Tool.getConnectionStatus) (rv ak : Bool) :
    (handleTool t true false rv ak).1 = SrvResp.errNotConnected ∧
    SrvEvent.accessorCall ∉ (handleTool t true false rv ak).2 ∧
    (∀ eo : Bool, SrvEvent.accessorCall ∈ (handleTool t true eo rv ak).2 → eo = true) := by
  cases t <;> first
    | exact absurd rfl ht
    | (revert rv ak; decide)

/-- C4 witness: the guarded behaviour at the portfolio tool. -/
theorem C4_amended_witness :
    (handleTool Tool.getPortfolio true false true true).1 = SrvResp.errNotConnected ∧
    SrvEvent.accessorCall ∉ (handleTool Tool.getPortfolio true false true true).2 ∧
    (∀ eo : Bool,
      SrvEvent.accessorCall ∈ (handleTool Tool.getPortfolio true eo true true).2 →
        eo = true) :=
  C4_amended Tool.getPortfolio (by decide) true true

/-- C6: the claim states both converters fall back to `totalQuantity` when the
broker reports no remaining value; the trade converter actually falls back to
0.0, as this concrete unacknowledged order with total quantity 5 shows. -/
theorem C6_counterexample :
    t6cx.orderStatus.remaining = 0 ∧
    t6cx.order.totalQuantity = 5 ∧
    (_convert_to_trade t6cx).remaining_quantity = 0 ∧
    (_convert_to_trade t6cx).remaining_quantity ≠ t6cx.order.totalQuantity := by
  refine ⟨rfl, rfl, rfl, by decide⟩

/-- C6 (amended): when the broker has not reported a remaining value (falsy),
the order converter used by `get_orders` falls back to `totalQuantity`, while
the trade converter used by `get_trades` falls back to 0.0. -/
theorem C6_amended (t : IBTradeR) (h : t.orderStatus.remaining = 0) :
    (_convert_trade_to_order t).remaining_quantity = t.order.totalQuantity ∧
    (_convert_to_trade t).remaining_quantity = 0 := by
  constructor <;> simp [_convert_trade_to_order, _convert_to_trade, h]

/-- C6 witness: the amended fallbacks at the concrete unacknowledged order. -/
theorem C6_amended_witness :
    (_convert_trade_to_order t6cx).remaining_quantity = t6cx.order.totalQuantity ∧
    (_convert_to_trade t6cx).remaining_quantity = 0 :=
  C6_amended t6cx rfl

/-- C8: while the connection is alive, `ensure_connected` returns true, resets
the retry counter to zero, performs no reconnect work (empty trace, so the
AccountContext is not re-derived) and leaves account and config unchanged. -/
theorem C8_alive_noop (s : ClientState) (probeOk : Bool) (env : ReconnectEnv)
    (halive : is_connection_alive s probeOk = true) :
    ensure_connected s probeOk env = (true, { s with reconnectAttempts := 0 }, []) ∧
    (ensure_connected s probeOk env).2.1.account = s.account ∧
    (ensure_connected s probeOk env).2.1.config = s.config ∧
    (ensure_connected s probeOk env).2.1.reconnectAttempts = 0 := by
  simp [ensure_connected, halive]

/-- C8 witness: the alive cheap path at a concrete live state with a stale
counter. -/
theorem C8_alive_noop_witness :
    ensure_connected s8w true envAllFail = (true, { s8w with reconnectAttempts := 0 }, []) ∧
    (ensure_connected s8w true envAllFail).2.1.account = s8w.account ∧
    (ensure_connected s8w true envAllFail).2.1.config = s8w.config ∧
    (ensure_connected s8w true envAllFail).2.1.reconnectAttempts = 0 :=
  C8_alive_noop s8w true envAllFail (by decide)

/-- helper: the return value of `connect` as a boolean formula of its oracles
(transport opens and an account can be resolved). -/
theorem connect_fst (cfg : IBKRConfig) (tok : Bool) (man : List String)
    (acct : Option String) :
    (connect cfg tok man acct).1 = (tok && (cfg.account.isSome || !man.isEmpty)) := by
  cases tok <;> rcases hA : cfg.account with _ | a <;> cases man <;>
    simp [connect, _update_account_info, hA]

/-- helper: a successful `connect` raises the connected flag. -/
theorem connect_ok_connected (cfg : IBKRConfig) (tok : Bool) (man : List String)
    (acct : Option String) (h : (connect cfg tok man acct).1 = true) :
    (connect cfg tok man acct).2.1 = true := by
  cases tok <;> rcases hA : cfg.account with _ | a <;> cases man <;>
    simp_all [connect, _update_account_info, hA]

/-- helper: a failed `connect` leaves the account unchanged. -/
theorem connect_fail_acct (cfg : IBKRConfig) (tok : Bool) (man : List String)
    (acct : Option String) (h : (connect cfg tok man acct).1 = false) :
    (connect cfg tok man acct).2.2 = acct := by
  cases tok <;> rcases hA : cfg.account with _ | a <;> cases man <;>
    simp_all [connect, _update_account_info, hA]

/-- helper: once the counter has reached the bound the loop exits at once with
false, the counter untouched and an empty trace. -/
theorem reconnectLoop_exhausted (cfg : IBKRConfig) (env : ReconnectEnv)
    (fuel attempts : Nat) (acct : Option String) (k : Nat)
    (h : ¬ attempts < maxReconnectAttempts) :
    reconnectLoop cfg env fuel attempts acct k =
      (false,
        { config := cfg, connected := false, account := acct,
          reconnectAttempts := attempts }, []) := by
  cases fuel <;> simp [reconnectLoop, h]

/-- helper: the loop makes at most `fuel` connect attempts. -/
theorem reconnectLoop_attempts_le (cfg : IBKRConfig) (env : ReconnectEnv) :
    ∀ (fuel attempts : Nat) (acct : Option String) (k : Nat),
      attemptsIn (reconnectLoop cfg env fuel attempts acct k).2.2 ≤ fuel := by
  intro fuel
  induction fuel with
  | zero =>
      intro attempts acct k
      simp [reconnectLoop, attemptsIn]
  | succ n ih =>
      intro attempts acct k
      by_cases h : attempts < maxReconnectAttempts
      · cases hc : (connect cfg (env.transportOk k) (env.managed k) acct).1 with
        | false =>
            have hrec := ih (attempts + 1)
              ((connect cfg (env.transportOk k) (env.managed k) acct).2.2) (k + 1)
            simp [reconnectLoop, h, hc, attemptsIn, isConnectAttempt] at hrec ⊢
            omega
        | true =>
            simp [reconnectLoop, h, hc, attemptsIn, isConnectAttempt]
      · simp [reconnectLoop, h, attemptsIn]

/-- helper: every trace the loop produces has a 2-unit backoff sleep between
any two consecutive connect attempts. -/
theorem reconnectLoop_backoff (cfg : IBKRConfig) (env : ReconnectEnv) :
    ∀ (fuel attempts : Nat) (acct : Option String) (k : Nat),
      backoffBetweenAttempts (reconnectLoop cfg env fuel attempts acct k).2.2 = true := by
  intro fuel
  induction fuel with
  | zero =>
      intro attempts acct k
      simp [reconnectLoop, backoffBetweenAttempts]
  | succ n ih =>
      intro attempts acct k
      by_cases h : attempts < maxReconnectAttempts
      · cases hc : (connect cfg (env.transportOk k) (env.managed k) acct).1 with
        | false =>
            have hrec := ih (attempts + 1)
              ((connect cfg (env.transportOk k) (env.managed k) acct).2.2) (k + 1)
            simp [reconnectLoop, h, hc, backoffBetweenAttempts, noAttemptBeforeBackoff, hrec]
        | true =>
            simp [reconnectLoop, h, hc, backoffBetweenAttempts, noAttemptBeforeBackoff]
      · simp [reconnectLoop, h, backoffBetweenAttempts]

/-- helper: when the loop reports failure it has made exactly `fuel` attempts
(called with `fuel + attempts` equal to the bound). -/
theorem reconnectLoop_false_attempts (cfg : IBKRConfig) (env : ReconnectEnv) :
    ∀ (fuel attempts : Nat) (acct : Option String) (k : Nat),
      fuel + attempts = maxReconnectAttempts →
      (reconnectLoop cfg env fuel attempts acct k).1 = false →
      attemptsIn (reconnectLoop cfg env fuel attempts acct k).2.2 = fuel := by
  intro fuel
  induction fuel with
  | zero =>
      intro attempts acct k hsum hf
      simp [reconnectLoop, attemptsIn]
  | succ n ih =>
      intro attempts acct k hsum hf
      have h : attempts < maxReconnectAttempts := by omega
      cases hc : (connect cfg (env.transportOk k) (env.managed k) acct).1 with
      | false =>
          have hf' : (reconnectLoop cfg env n (attempts + 1)
              ((connect cfg (env.transportOk k) (env.managed k) acct).2.2) (k + 1)).1 = false := by
            simp [reconnectLoop, h, hc] at hf
            exact hf
          have hrec := ih (attempts + 1)
            ((connect cfg (env.transportOk k) (env.managed k) acct).2.2) (k + 1)
            (by omega) hf'
          simp [reconnectLoop, h, hc, attemptsIn, isConnectAttempt] at hrec ⊢
          omega
      | true =>
          simp [reconnectLoop, h, hc] at hf

/-- helper: when every connect attempt the loop could make fails, the loop
returns false. -/
theorem reconnectLoop_all_fail (cfg : IBKRConfig) (env : ReconnectEnv) :
    ∀ (fuel attempts : Nat) (acct : Option String) (k : Nat),
      (∀ m, m < fuel → connectOkAt cfg env (k + m) = false) →
      (reconnectLoop cfg env fuel attempts acct k).1 = false := by
  intro fuel
  induction fuel with
  | zero =>
      intro attempts acct k _
      simp [reconnectLoop]
  | succ n ih =>
      intro attempts acct k hall
      by_cases h : attempts < maxReconnectAttempts
      · have hc : (connect cfg (env.transportOk k) (env.managed k) acct).1 = false := by
          have h0 := hall 0 (by omega)
          rw [connectOkAt, connect_fst] at h0
          rw [connect_fst]
          simpa using h0
        have hrec := ih (attempts + 1)
          ((connect cfg (env.transportOk k) (env.managed k) acct).2.2) (k + 1)
          (fun m hm => by
            have := hall (m + 1) (by omega)
            rwa [show k + (m + 1) = k + 1 + m by omega] at this)
        simp [reconnectLoop, h, hc, hrec]
      · simp [reconnectLoop, h]

/-- helper: when the first `n` connect attempts fail and the next succeeds
(within the fuel), the loop returns true with the counter reset after exactly
`n + 1` attempts. -/
theorem reconnectLoop_first_success (cfg : IBKRConfig) (env : ReconnectEnv) :
    ∀ (fuel attempts : Nat) (acct : Option String) (k n : Nat),
      n < fuel →
      fuel + attempts = maxReconnectAttempts →
      (∀ m, m < n → connectOkAt cfg env (k + m) = false) →
      connectOkAt cfg env (k + n) = true →
      (reconnectLoop cfg env fuel attempts acct k).1 = true ∧
      (reconnectLoop cfg env fuel attempts acct k).2.1.reconnectAttempts = 0 ∧
      attemptsIn (reconnectLoop cfg env fuel attempts acct k).2.2 = n + 1 := by
  intro fuel
  induction fuel with
  | zero =>
      intro attempts acct k n hn
      omega
  | succ nf ih =>
      intro attempts acct k n hn hsum hprev hok
      have h : attempts < maxReconnectAttempts := by omega
      cases n with
      | zero =>
          have hc : (connect cfg (env.transportOk k) (env.managed k) acct).1 = true := by
            rw [connectOkAt, connect_fst] at hok
            rw [connect_fst]
            simpa using hok
          simp [reconnectLoop, h, hc, attemptsIn, isConnectAttempt]
      | succ m =>
          have hc : (connect cfg (env.transportOk k) (env.managed k) acct).1 = false := by
            have h0 := hprev 0 (by omega)
            rw [connectOkAt, connect_fst] at h0
            rw [connect_fst]
            simpa using h0
          have hrec := ih (attempts + 1)
            ((connect cfg (env.transportOk k) (env.managed k) acct).2.2) (k + 1) m
            (by omega) (by omega)
            (fun m' hm' => by
              have := hprev (m' + 1) (by omega)
              rwa [show k + (m' + 1) = k + 1 + m' by omega] at this)
            (by rwa [show k + (m + 1) = k + 1 + m by omega] at hok)
          simp [reconnectLoop, h, hc, attemptsIn, isConnectAttempt] at hrec ⊢
          exact ⟨hrec.1, hrec.2.1, by omega⟩

/-- helper: a final counter of zero can only come from a successful attempt
(called with enough fuel to reach the bound). -/
theorem reconnectLoop_counter_zero (cfg : IBKRConfig) (env : ReconnectEnv) :
    ∀ (fuel attempts : Nat) (acct : Option String) (k : Nat),
      maxReconnectAttempts ≤ fuel + attempts →
      (reconnectLoop cfg env fuel attempts acct k).2.1.reconnectAttempts = 0 →
      (reconnectLoop cfg env fuel attempts acct k).1 = true := by
  intro fuel
  induction fuel with
  | zero =>
      intro attempts acct k hinv h0
      simp [reconnectLoop] at h0
      simp [maxReconnectAttempts] at hinv
      omega
  | succ n ih =>
      intro attempts acct k hinv h0
      by_cases h : attempts < maxReconnectAttempts
      · cases hc : (connect cfg (env.transportOk k) (env.managed k) acct).1 with
        | false =>
            have hrec := ih (attempts + 1)
              ((connect cfg (env.transportOk k) (env.managed k) acct).2.2) (k + 1)
              (by omega)
            simp [reconnectLoop, h, hc] at h0 ⊢
            exact hrec h0
        | true =>
            simp [reconnectLoop, h, hc]
      · rw [reconnectLoop_exhausted cfg env (n + 1) attempts acct k h] at h0 ⊢
        simp at h0
        simp [maxReconnectAttempts] at h
        omega

/-- C5: an `ensure_connected` invocation that finds the connection dead (with
a fresh counter) makes at most 3 connect attempts with a 2-time-unit backoff
between consecutive attempts; if it returns false it exhausted all 3 attempts
(and it does return false when all 3 fail); and if the first success is the
(n+1)-st attempt (n < 3) it returns true with the counter reset to 0 after
exactly n+1 attempts. -/
theorem C5_bounded_reconnect (s : ClientState) (probeOk : Bool) (env : ReconnectEnv)
    (hdead : is_connection_alive s probeOk = false) (h0 : s.reconnectAttempts = 0) :
    attemptsIn (ensure_connected s probeOk env).2.2 ≤ 3 ∧
    backoffBetweenAttempts (ensure_connected s probeOk env).2.2 = true ∧
    ((ensure_connected s probeOk env).1 = false →
      attemptsIn (ensure_connected s probeOk env).2.2 = 3) ∧
    ((∀ m, m < 3 → connectOkAt s.config env m = false) →
      (ensure_connected s probeOk env).1 = false) ∧
    (∀ n, n < 3 → (∀ m, m < n → connectOkAt s.config env m = false) →
      connectOkAt s.config env n = true →
      (ensure_connected s probeOk env).1 = true ∧
      (ensure_connected s probeOk env).2.1.reconnectAttempts = 0 ∧
      attemptsIn (ensure_connected s probeOk env).2.2 = n + 1) := by
  have hred : ensure_connected s probeOk env =
      reconnectLoop s.config env maxReconnectAttempts 0 s.account 0 := by
    simp [ensure_connected, hdead, h0]
  rw [hred]
  refine ⟨?_, ?_, ?_, ?_, ?_⟩
  · exact reconnectLoop_attempts_le s.config env maxReconnectAttempts 0 s.account 0
  · exact reconnectLoop_backoff s.config env maxReconnectAttempts 0 s.account 0
  · intro hf
    exact reconnectLoop_false_attempts s.config env maxReconnectAttempts 0 s.account 0
      (by simp [maxReconnectAttempts]) hf
  · intro hall
    exact reconnectLoop_all_fail s.config env maxReconnectAttempts 0 s.account 0
      (fun m hm => by simpa using hall m (by simpa [maxReconnectAttempts] using hm))
  · intro n hn hprev hok
    exact reconnectLoop_first_success s.config env maxReconnectAttempts 0 s.account 0 n
      (by simpa [maxReconnectAttempts] using hn) (by simp [maxReconnectAttempts])
      (fun m hm => by simpa using hprev m hm) (by simpa using hok)

/-- C5 witness: the bounded reconnect protocol at a concrete dead client with
every transport attempt failing. -/
theorem C5_bounded_reconnect_witness :
    attemptsIn (ensure_connected s5w false envAllFail).2.2 ≤ 3 ∧
    backoffBetweenAttempts (ensure_connected s5w false envAllFail).2.2 = true ∧
    ((ensure_connected s5w false envAllFail).1 = false →
      attemptsIn (ensure_connected s5w false envAllFail).2.2 = 3) ∧
    ((∀ m, m < 3 → connectOkAt s5w.config envAllFail m = false) →
      (ensure_connected s5w false envAllFail).1 = false) ∧
    (∀ n, n < 3 → (∀ m, m < n → connectOkAt s5w.config envAllFail m = false) →
      connectOkAt s5w.config envAllFail n = true →
      (ensure_connected s5w false envAllFail).1 = true ∧
      (ensure_connected s5w false envAllFail).2.1.reconnectAttempts = 0 ∧
      attemptsIn (ensure_connected s5w false envAllFail).2.2 = n + 1) :=
  C5_bounded_reconnect s5w false envAllFail (by decide) rfl

/-- C10: once the retry counter has saturated at 3, a further invocation that
finds the connection dead returns false at once with zero new connect attempts
and the counter untouched; and any invocation ending with a zero counter
either observed the connection alive or returned true (a reconnect attempt
succeeded) — those are the only resets. -/
theorem C10_counter_saturation (s : ClientState) (probeOk : Bool) (env : ReconnectEnv)
    (hdead : is_connection_alive s probeOk = false) (h3 : s.reconnectAttempts = 3) :
    (ensure_connected s probeOk env).1 = false ∧
    (ensure_connected s probeOk env).2.2 = [] ∧
    attemptsIn (ensure_connected s probeOk env).2.2 = 0 ∧
    (ensure_connected s probeOk env).2.1.reconnectAttempts = 3 ∧
    (∀ (s' : ClientState) (probeOk' : Bool) (env' : ReconnectEnv),
      (ensure_connected s' probeOk' env').2.1.reconnectAttempts = 0 →
      is_connection_alive s' probeOk' = true ∨
        (ensure_connected s' probeOk' env').1 = true) := by
  have hred : ensure_connected s probeOk env =
      reconnectLoop s.config env maxReconnectAttempts 3 s.account 0 := by
    simp [ensure_connected, hdead, h3]
  rw [hred, reconnectLoop_exhausted s.config env maxReconnectAttempts 3 s.account 0
    (by simp [maxReconnectAttempts])]
  refine ⟨rfl, rfl, rfl, rfl, ?_⟩
  intro s' p' e' h0'
  by_cases ha : is_connection_alive s' p' = true
  · exact Or.inl ha
  · right
    have hb : is_connection_alive s' p' = false := by
      simpa using ha
    have hred' : ensure_connected s' p' e' =
        reconnectLoop s'.config e' maxReconnectAttempts s'.reconnectAttempts s'.account 0 := by
      simp [ensure_connected, hb]
    rw [hred'] at h0' ⊢
    exact reconnectLoop_counter_zero s'.config e' maxReconnectAttempts
      s'.reconnectAttempts s'.account 0 (Nat.le_add_right _ _) h0'

/-- C10 witness: the saturated counter blocks new attempts even in an
environment where connecting would succeed. -/
theorem C10_counter_saturation_witness :
    (ensure_connected s10w false envAllOk).1 = false ∧
    (ensure_connected s10w false envAllOk).2.2 = [] ∧
    attemptsIn (ensure_connected s10w false envAllOk).2.2 = 0 ∧
    (ensure_connected s10w false envAllOk).2.1.reconnectAttempts = 3 ∧
    (∀ (s' : ClientState) (probeOk' : Bool) (env' : ReconnectEnv),
      (ensure_connected s' probeOk' env').2.1.reconnectAttempts = 0 →
      is_connection_alive s' probeOk' = true ∨
        (ensure_connected s' probeOk' env').1 = true) :=
  C10_counter_saturation s10w false envAllOk (by decide) rfl

/-- helper: the tag dict built by the account-value loop holds, for each tag,
the value of its last parseable occurrence (later dict assignments overwrite
earlier ones, unparseable items are skipped). -/
theorem buildAV_foldl (k : String) :
    ∀ (items : List AccountValueR) (acc : String → Option ℚ),
      (items.foldl
        (fun acc item =>
          match item.parsedValue with
          | some v => fun t => if t = item.tag then some v else acc t
          | none => acc) acc) k
        = ((lastParsed items k).orElse (fun _ => acc k)) := by
  intro items
  induction items with
  | nil =>
      intro acc
      simp [lastParsed]
  | cons i rest ih =>
      intro acc
      rw [List.foldl_cons, ih]
      cases hp : i.parsedValue with
      | none =>
          cases hl : lastParsed rest k <;>
            simp [lastParsed, hp, hl, Option.orElse]
      | some v =>
          by_cases ht : i.tag = k
          · subst ht
            cases hl : lastParsed rest i.tag <;>
              simp [lastParsed, hp, hl, Option.orElse]
          · have ht' : ¬ k = i.tag := fun hh => ht hh.symm
            cases hl : lastParsed rest k <;>
              simp [lastParsed, hp, hl, ht, ht', Option.orElse]

/-- helper: the dict lookup equals the last parseable occurrence of the tag. -/
theorem buildAccountValues_eq (items : List AccountValueR) (k : String) :
    buildAccountValues items k = lastParsed items k := by
  unfold buildAccountValues
  rw [buildAV_foldl k items (fun _ => none)]
  cases lastParsed items k <;> simp [Option.orElse]

/-- helper: a tag the dict holds a value for has a parseable occurrence with
that value among the items. -/
theorem lastParsed_some (k : String) :
    ∀ (items : List AccountValueR) (v : ℚ), lastParsed items k = some v →
      ∃ i ∈ items, i.tag = k ∧ i.parsedValue = some v := by
  intro items
  induction items with
  | nil =>
      intro v h
      simp [lastParsed] at h
  | cons i rest ih =>
      intro v h
      cases hl : lastParsed rest k with
      | some w =>
          rw [lastParsed, hl] at h
          simp [Option.orElse] at h
          obtain ⟨j, hj, hjk, hjv⟩ := ih w hl
          exact ⟨j, List.mem_cons_of_mem _ hj, hjk, by rw [hjv, h]⟩
      | none =>
          rw [lastParsed, hl] at h
          simp [Option.orElse] at h
          exact ⟨i, List.mem_cons_self i rest, h.1, h.2⟩

/-- helper: a parseable occurrence of a tag guarantees the dict holds a value
for it. -/
theorem lastParsed_isSome (k : String) :
    ∀ items : List AccountValueR,
      (∃ i ∈ items, i.tag = k ∧ i.parsedValue.isSome) →
      (lastParsed items k).isSome := by
  intro items
  induction items with
  | nil =>
      rintro ⟨i, hi, -⟩
      simp at hi
  | cons i rest ih =>
      rintro ⟨j, hj, hjk, hjs⟩
      rcases List.mem_cons.mp hj with rfl | hj'
      · cases hl : lastParsed rest k with
        | some w => simp [lastParsed, hl, Option.orElse]
        | none => simp [lastParsed, hl, Option.orElse, hjk, hjs]
      · have hrest := ih ⟨j, hj', hjk, hjs⟩
        cases hl : lastParsed rest k with
        | some w => simp [lastParsed, hl, Option.orElse]
        | none =>
            rw [hl] at hrest
            simp at hrest

/-- helper: without any parseable occurrence of a tag the dict has no value
for it. -/
theorem lastParsed_none (k : String) :
    ∀ items : List AccountValueR,
      (∀ i ∈ items, i.tag = k → i.parsedValue = none) →
      lastParsed items k = none := by
  intro items
  induction items with
  | nil =>
      intro _
      simp [lastParsed]
  | cons i rest ih =>
      intro h
      have hrest := ih (fun j hj => h j (List.mem_cons_of_mem _ hj))
      by_cases ht : i.tag = k
      · have hi := h i (List.mem_cons_self i rest) ht
        simp [lastParsed, hrest, Option.orElse, ht, hi]
      · simp [lastParsed, hrest, Option.orElse, ht]

/-- helper: the available-funds field reads the dict at "AvailableFunds" with
default 0. -/
theorem available_funds_eq (account : String) (items : List AccountValueR) :
    (get_account_summary account items).available_funds =
      (lastParsed items "AvailableFunds").getD 0 := by
  simp [get_account_summary, buildAccountValues_eq]

/-- C7: `get_account_summary` reports as available funds the parsed numeric
value of an "AvailableFunds" occurrence when one parses, 0.0 when none does,
and an unparseable item anywhere in the account values is skipped without
affecting the constructed summary. -/
theorem C7_available_funds (account : String) (items : List AccountValueR) :
    ((∃ i ∈ items, i.tag = "AvailableFunds" ∧ i.parsedValue.isSome) →
      ∃ i ∈ items, i.tag = "AvailableFunds" ∧
        i.parsedValue = some (get_account_summary account items).available_funds) ∧
    ((∀ i ∈ items, i.tag = "AvailableFunds" → i.parsedValue = none) →
      (get_account_summary account items).available_funds = 0) ∧
    (∀ (pre post : List AccountValueR) (bad : AccountValueR),
      bad.parsedValue = none →
      get_account_summary account (pre ++ bad :: post) =
        get_account_summary account (pre ++ post)) := by
  refine ⟨?_, ?_, ?_⟩
  · intro hex
    have hs := lastParsed_isSome "AvailableFunds" items hex
    cases hl : lastParsed items "AvailableFunds" with
    | none =>
        rw [hl] at hs
        simp at hs
    | some v =>
        obtain ⟨i, hi, hik, hiv⟩ := lastParsed_some "AvailableFunds" items v hl
        refine ⟨i, hi, hik, ?_⟩
        rw [available_funds_eq, hl]
        simpa using hiv
  · intro hall
    rw [available_funds_eq, lastParsed_none "AvailableFunds" items hall]
    rfl
  · intro pre post bad hbad
    have hbv : buildAccountValues (pre ++ bad :: post) = buildAccountValues (pre ++ post) := by
      unfold buildAccountValues
      rw [List.foldl_append, List.foldl_append, List.foldl_cons]
      congr 1
      simp [hbad]
    simp [get_account_summary, hbv]

/-- C7 witness: absent available funds default to 0, and the spec's example
list with its non-numeric "Currency" entry builds the same summary as the
list without that entry. -/
theorem C7_available_funds_witness :
    ((∀ i ∈ itemsNoAF, i.tag = "AvailableFunds" → i.parsedValue = none) ∧
      (get_account_summary "DU1" itemsNoAF).available_funds = 0) ∧
    get_account_summary "DU1"
        ([{ tag := "NetLiquidation", parsedValue := some (12543055 / 100) }] ++
          { tag := "Currency", parsedValue := (none : Option ℚ) } ::
            [{ tag := "AvailableFunds", parsedValue := some (9821010 / 100) }]) =
      get_account_summary "DU1"
        ([{ tag := "NetLiquidation", parsedValue := some (12543055 / 100) }] ++
          [{ tag := "AvailableFunds", parsedValue := some (9821010 / 100) }]) := by
  refine ⟨⟨by decide, (C7_available_funds "DU1" itemsNoAF).2.1 (by decide)⟩, ?_⟩
  exact (C7_available_funds "DU1" itemsNoAF).2.2
    [{ tag := "NetLiquidation", parsedValue := some (12543055 / 100) }]
    [{ tag := "AvailableFunds", parsedValue := some (9821010 / 100) }]
    { tag := "Currency", parsedValue := none } rfl

/-- helper: the Python abs model agrees with the mathematical absolute value. -/
theorem pyAbs_eq_abs (x : ℚ) : pyAbs x = |x| := by
  unfold pyAbs
  by_cases h : x < 0
  · rw [if_pos h, abs_of_neg h]
  · rw [if_neg h, abs_of_nonneg (le_of_not_lt h)]

/-- helper: on a nonempty strike list the ATM index is a valid index. -/
theorem atmIndex_lt_length (l : List ℚ) (price : ℚ) (h : l ≠ []) :
    atmIndex l price < l.length := by
  unfold atmIndex
  cases hm : (List.range l.length).argmin (fun i => pyAbs (l.getD i 0 - price)) with
  | none =>
      rw [List.argmin_eq_none, List.range_eq_nil] at hm
      exact absurd (List.length_eq_zero.mp hm) h
  | some m =>
      have hmem : m ∈ List.range l.length := List.argmin_mem hm
      simpa using List.mem_range.mp hmem

/-- helper: the strike at the ATM index is distance-minimal to the underlying
price among all strikes. -/
theorem atmIndex_min (l : List ℚ) (price : ℚ) (j : Nat) (hj : j < l.length) :
    pyAbs (l.getD (atmIndex l price) 0 - price) ≤ pyAbs (l.getD j 0 - price) := by
  unfold atmIndex
  cases hm : (List.range l.length).argmin (fun i => pyAbs (l.getD i 0 - price)) with
  | none =>
      rw [List.argmin_eq_none, List.range_eq_nil] at hm
      omega
  | some m =>
      simpa using List.le_of_mem_argmin (List.mem_range.mpr hj) hm

/-- helper: the element at a valid index of the sorted list lies inside the
selected window slice. -/
theorem atm_mem_slice (all : List ℚ) (atm : Nat) (hatm : atm < all.length) :
    all.get ⟨atm, hatm⟩ ∈
      (all.drop (atm - 3)).take (min all.length (atm + 4) - (atm - 3)) := by
  have hp : atm - (atm - 3) <
      ((all.drop (atm - 3)).take (min all.length (atm + 4) - (atm - 3))).length := by
    rw [List.length_take, List.length_drop]
    omega
  have h3 : ((all.drop (atm - 3)).take
        (min all.length (atm + 4) - (atm - 3))).get ⟨atm - (atm - 3), hp⟩
      = all.get ⟨atm, hatm⟩ := by
    rw [List.get_eq_getElem, List.get_eq_getElem, List.getElem_take, List.getElem_drop]
    congr 1
    simp
  rw [← h3]
  exact List.get_mem _ _ _

/-- C1 (amended): the strike-window selection of `get_option_chain` with
`strike_range = 6` returns at most 7 strikes, never more than the full list
holds, sorted ascending, and the window always contains a strike
distance-minimal to the underlying price; when the full list has fewer than 7
strikes the window can still be smaller than the full list (the claim's
"exactly that many" fails near the edges, see the counterexample).  The claim
is stated of `get_option_chain`'s return value; that method never returns at
all (see C9), so the window property is proved of the embedded selection
logic. -/
theorem C1_amended (raw : List ℚ) (price : ℚ) (hne : raw ≠ []) :
    (selectStrikes raw price 6).length ≤ 7 ∧
    (selectStrikes raw price 6).length ≤ raw.length ∧
    List.Sorted (· ≤ ·) (selectStrikes raw price 6) ∧
    ∃ a ∈ selectStrikes raw price 6, ∀ s ∈ raw, |a - price| ≤ |s - price| := by
  have hlenall : (sortedPy raw).length = raw.length :=
    (List.perm_insertionSort (· ≤ ·) raw).length_eq
  have hne' : sortedPy raw ≠ [] := by
    intro h0
    apply hne
    rw [h0] at hlenall
    exact List.length_eq_zero.mp hlenall.symm
  have hatm : atmIndex (sortedPy raw) price < (sortedPy raw).length :=
    atmIndex_lt_length (sortedPy raw) price hne'
  have hsel : selectStrikes raw price 6 =
      ((sortedPy raw).drop (atmIndex (sortedPy raw) price - 3)).take
        (min (sortedPy raw).length (atmIndex (sortedPy raw) price + 4) -
          (atmIndex (sortedPy raw) price - 3)) := by
    simp [selectStrikes]
  have hlen : (selectStrikes raw price 6).length =
      min (min (sortedPy raw).length (atmIndex (sortedPy raw) price + 4) -
            (atmIndex (sortedPy raw) price - 3))
        ((sortedPy raw).length - (atmIndex (sortedPy raw) price - 3)) := by
    rw [hsel, List.length_take, List.length_drop]
  refine ⟨?_, ?_, ?_, ?_⟩
  · rw [hlen]
    omega
  · rw [hlen, ← hlenall]
    omega
  · have hsorted : List.Sorted (· ≤ ·) (sortedPy raw) :=
      List.sorted_insertionSort (· ≤ ·) raw
    rw [hsel]
    exact List.Pairwise.sublist
      ((List.take_sublist _ _).trans (List.drop_sublist _ _)) hsorted
  · refine ⟨(sortedPy raw).get ⟨atmIndex (sortedPy raw) price, hatm⟩, ?_, ?_⟩
    · rw [hsel]
      exact atm_mem_slice (sortedPy raw) (atmIndex (sortedPy raw) price) hatm
    · intro s hs
      have hs' : s ∈ sortedPy raw :=
        ((List.perm_insertionSort (· ≤ ·) raw).mem_iff).mpr hs
      obtain ⟨j, hj, hjs⟩ := List.mem_iff_getElem.mp hs'
      have hmin := atmIndex_min (sortedPy raw) price j hj
      rw [List.getD_eq_getElem _ 0 hatm, List.getD_eq_getElem _ 0 hj, hjs] at hmin
      rw [← pyAbs_eq_abs, ← pyAbs_eq_abs]
      simpa [List.get_eq_getElem] using hmin

/-- C1: the claim that a full strike list with fewer than 7 entries comes back
whole is false: with 5 available strikes and the underlying price below the
lowest strike the ATM index is 0, so the window `[max(0, 0-3), min(5, 0+4))`
holds only 4 of the 5 strikes. -/
theorem C1_counterexample :
    ([(10 : ℚ), 20, 30, 40, 50].length = 5) ∧
    selectStrikes [10, 20, 30, 40, 50] 5 6 = [10, 20, 30, 40] ∧
    (selectStrikes [10, 20, 30, 40, 50] 5 6).length ≠
      [(10 : ℚ), 20, 30, 40, 50].length := by
  have hsel : selectStrikes [(10 : ℚ), 20, 30, 40, 50] 5 6 = [10, 20, 30, 40] := by
    norm_num [selectStrikes, sortedPy, atmIndex, List.insertionSort, List.orderedInsert,
      List.argmin, List.argAux, pyAbs, List.range_succ, List.foldl]
  refine ⟨by simp, hsel, ?_⟩
  rw [hsel]
  simp

/-- C1 witness: the amended window properties at the counterexample's input. -/
theorem C1_amended_witness :
    (selectStrikes [10, 20, 30, 40, 50] 5 6).length ≤ 7 ∧
    (selectStrikes [10, 20, 30, 40, 50] 5 6).length ≤ [(10 : ℚ), 20, 30, 40, 50].length ∧
    List.Sorted (· ≤ ·) (selectStrikes [10, 20, 30, 40, 50] 5 6) ∧
    ∃ a ∈ selectStrikes [10, 20, 30, 40, 50] 5 6,
      ∀ s ∈ [(10 : ℚ), 20, 30, 40, 50], |a - 5| ≤ |s - 5| :=
  C1_amended [10, 20, 30, 40, 50] 5 (by simp)

/-- sanity check: the spec's worked example — underlying 187.32, strikes
170..200 step 5, window 4 — selects [175, 180, 185, 190, 195]. -/
theorem strikeWindow_spec_example :
    selectStrikes [170, 175, 180, 185, 190, 195, 200] (18732 / 100) 4 =
      [175, 180, 185, 190, 195] := by
  norm_num [selectStrikes, sortedPy, atmIndex, List.insertionSort, List.orderedInsert,
    List.argmin, List.argAux, pyAbs, List.range_succ, List.foldl]

/-- C9: on a connected session `get_option_chain` raises on every execution
path and never returns a chain: either the stock qualification raises first,
or the call `self._request_market_data(stock)` on line 563 raises
`AttributeError` because no such method exists on `IBKRClient`; the `except`
clause re-raises either one. -/
theorem C9_always_raises (env : ChainEnv) (symbol expiry : String) (sr : Nat)
    (exchange : String) :
    (∃ e, get_option_chain true env symbol expiry sr exchange = Except.error e) ∧
    (env.qualifyOk = true →
      get_option_chain true env symbol expiry sr exchange =
        Except.error (ChainErr.attributeError "_request_market_data")) := by
  have hmem : "_request_market_data" ∉ ibkrClientMethods := by decide
  constructor
  · by_cases hq : env.qualifyOk = true
    · exact ⟨ChainErr.attributeError "_request_market_data",
        by simp [get_option_chain, hq, hmem]⟩
    · have hq' : env.qualifyOk = false := by
        simpa using hq
      exact ⟨ChainErr.qualifyFailed, by simp [get_option_chain, hq']⟩
  · intro hq
    simp [get_option_chain, hq, hmem]

/-- C9 witness: the attribute error surfaces at a concrete environment whose
stock qualification succeeds. -/
theorem C9_always_raises_witness :
    get_option_chain true envC9 "AAPL" "20241220" 6 "SMART" =
      Except.error (ChainErr.attributeError "_request_market_data") :=
  (C9_always_raises envC9 "AAPL" "20241220" 6 "SMART").2 rfl

end IBKR
